import Mathlib

/-!
# Shallow embedding of the Azure cluster-autoscaler configuration resolver

This file embeds `cluster-autoscaler/cloudprovider/azure/azure_config.go`:
the `Config` / `CloudProviderRateLimitConfig` data model, the environment
loading path of `BuildAzureConfig`, the rate-limit override resolver
(`initializeCloudProviderRateLimitConfig` / `overrideDefaultRateLimitConfig`),
`TrimSpace`, `validate` and `getSubscriptionIdFromInstanceMetadata`.

Conventions of the embedding:
- Go pointers to `RateLimitConfig` become `Option RateLimitConfig`
  (`nil` = `none`); functions that mutate through a pointer return the
  updated value.
- `float32`/`float64` fields become `Rat`: the source only copies these
  values and compares them with `0`, it performs no float arithmetic, so
  every value appearing here is exact.
- `int`/`int64` fields become `Int`.
- The process environment becomes an explicit snapshot
  `Env := String → Option String`; `os.Getenv` yields `""` for an unset
  variable, `os.LookupEnv` yields the `Option` itself.
- The two external providers (the instance-metadata subscription query and
  `readDeploymentParameters`) are passed in as their results, of type
  `Except String _`.
- `map[string]interface{}` deployment parameters are modelled by their key
  list (`List String`); the source only ever observes the length.
- Errors are `Except String _` carrying the message text; `fmt.Errorf`
  messages that interpolate values are approximated, the fixed `validate`
  and identity-conflict messages are kept verbatim.
-/

namespace AzureConfig

/-! ## Constants (azure_config.go lines 39-69, plus two constants of the
same Go package defined in neighbouring files) -/

def backoffRetriesDefault : Int := 6

def backoffExponentDefault : Rat := 3 / 2

def backoffDurationDefault : Int := 5

def backoffJitterDefault : Rat := 1

def rateLimitQPSDefault : Rat := 1

def rateLimitBucketDefault : Int := 5

def rateLimitReadQPSEnvVar : String := "RATE_LIMIT_READ_QPS"

def rateLimitReadBucketsEnvVar : String := "RATE_LIMIT_READ_BUCKETS"

def rateLimitWriteQPSEnvVar : String := "RATE_LIMIT_WRITE_QPS"

def rateLimitWriteBucketsEnvVar : String := "RATE_LIMIT_WRITE_BUCKETS"

def VmssSizeRefreshPeriodDefault : Int := 30

def authMethodPrincipal : String := "principal"

def authMethodCLI : String := "cli"

def dynamicInstanceListDefault : Bool := false

def enableVmssFlexDefault : Bool := false

/-- `vmTypeStandard`, defined in `azure_util.go` of the same package. -/
def vmTypeStandard : String := "standard"

/-- `vmTypeVMSS`, defined in `azure_util.go` of the same package. -/
def vmTypeVMSS : String := "vmss"

/-- `defaultMaxDeploymentsCount`, defined in `azure_manager.go` of the same
package; no claim depends on its numeric value, only on it being nonzero. -/
def defaultMaxDeploymentsCount : Int := 10

/-! ## Data model -/

/-- `azclients.RateLimitConfig` (the vendored
`sigs.k8s.io/cloud-provider-azure` type), restricted to the five fields this
file reads and writes. -/
structure RateLimitConfig where
  CloudProviderRateLimit : Bool
  CloudProviderRateLimitQPS : Rat
  CloudProviderRateLimitBucket : Int
  CloudProviderRateLimitQPSWrite : Rat
  CloudProviderRateLimitBucketWrite : Int
  deriving Repr, DecidableEq

/-- The Go zero value of `azclients.RateLimitConfig`. -/
def RateLimitConfig.zero : RateLimitConfig :=
  { CloudProviderRateLimit := false
    CloudProviderRateLimitQPS := 0
    CloudProviderRateLimitBucket := 0
    CloudProviderRateLimitQPSWrite := 0
    CloudProviderRateLimitBucketWrite := 0 }

/-- `CloudProviderRateLimitConfig` (lines 71-83): the embedded global default
plus one optional override per resource kind. -/
structure CloudProviderRateLimitConfig where
  rateLimitConfig : RateLimitConfig
  InterfaceRateLimit : Option RateLimitConfig
  VirtualMachineRateLimit : Option RateLimitConfig
  StorageAccountRateLimit : Option RateLimitConfig
  DiskRateLimit : Option RateLimitConfig
  VirtualMachineScaleSetRateLimit : Option RateLimitConfig
  KubernetesServiceRateLimit : Option RateLimitConfig
  deriving Repr, DecidableEq

/-- `Config` (lines 85-155). The embedded `CloudProviderRateLimitConfig`
becomes the named field `cloudProviderRateLimitConfig`. -/
structure Config where
  cloudProviderRateLimitConfig : CloudProviderRateLimitConfig
  Cloud : String
  Location : String
  TenantID : String
  SubscriptionID : String
  ClusterName : String
  ResourceGroup : String
  ClusterResourceGroup : String
  VMType : String
  ARMBaseURLForAPClient : String
  AuthMethod : String
  AADClientID : String
  AADClientSecret : String
  AADClientCertPath : String
  AADClientCertPassword : String
  AADFederatedTokenFile : String
  UseManagedIdentityExtension : Bool
  UseWorkloadIdentityExtension : Bool
  UserAssignedIdentityID : String
  Deployment : String
  DeploymentParameters : List String
  VmssCacheTTL : Int
  VmssVmsCacheTTL : Int
  VmssVmsCacheJitter : Int
  GetVmssSizeRefreshPeriod : Int
  MaxDeploymentsCount : Int
  CloudProviderBackoff : Bool
  CloudProviderBackoffRetries : Int
  CloudProviderBackoffExponent : Rat
  CloudProviderBackoffDuration : Int
  CloudProviderBackoffJitter : Rat
  EnableForceDelete : Bool
  EnableDynamicInstanceList : Bool
  EnableVmssFlex : Bool
  deriving Repr, DecidableEq

/-- The Go zero value `Config{}` built at line 160. -/
def Config.empty : Config :=
  { cloudProviderRateLimitConfig :=
      { rateLimitConfig := RateLimitConfig.zero
        InterfaceRateLimit := none
        VirtualMachineRateLimit := none
        StorageAccountRateLimit := none
        DiskRateLimit := none
        VirtualMachineScaleSetRateLimit := none
        KubernetesServiceRateLimit := none }
    Cloud := ""
    Location := ""
    TenantID := ""
    SubscriptionID := ""
    ClusterName := ""
    ResourceGroup := ""
    ClusterResourceGroup := ""
    VMType := ""
    ARMBaseURLForAPClient := ""
    AuthMethod := ""
    AADClientID := ""
    AADClientSecret := ""
    AADClientCertPath := ""
    AADClientCertPassword := ""
    AADFederatedTokenFile := ""
    UseManagedIdentityExtension := false
    UseWorkloadIdentityExtension := false
    UserAssignedIdentityID := ""
    Deployment := ""
    DeploymentParameters := []
    VmssCacheTTL := 0
    VmssVmsCacheTTL := 0
    VmssVmsCacheJitter := 0
    GetVmssSizeRefreshPeriod := 0
    MaxDeploymentsCount := 0
    CloudProviderBackoff := false
    CloudProviderBackoffRetries := 0
    CloudProviderBackoffExponent := 0
    CloudProviderBackoffDuration := 0
    CloudProviderBackoffJitter := 0
    EnableForceDelete := false
    EnableDynamicInstanceList := false
    EnableVmssFlex := false }

/-! ## The environment snapshot -/

/-- One immutable snapshot of the process environment: `none` means the
variable is not set at all, `some s` means it is set to `s` (possibly `""`). -/
abbrev Env := String → Option String

/-- `os.Getenv`: an unset variable reads as the empty string. -/
def getEnv (env : Env) (name : String) : String := (env name).getD ""

/-- `os.LookupEnv`: presence is observable. -/
def lookupEnv (env : Env) (name : String) : Option String := env name

/-- The empty environment. -/
def emptyEnv : Env := fun _ => none

/-- An environment holding exactly the given bindings. -/
def envOfList (l : List (String × String)) : Env :=
  fun n => (l.find? (fun p => p.1 = n)).map (fun p => p.2)

/-! ## Typed coercion (Go `strconv`, external library, modelled from its
documented behaviour) -/

/-- Modelled from Go `strconv.ParseBool`: exactly these twelve strings are
accepted. -/
def parseBool (s : String) : Option Bool :=
  if s = "1" ∨ s = "t" ∨ s = "T" ∨ s = "true" ∨ s = "TRUE" ∨ s = "True" then
    some true
  else if s = "0" ∨ s = "f" ∨ s = "F" ∨ s = "false" ∨ s = "FALSE" ∨ s = "False" then
    some false
  else none

/-- The value of a nonempty run of decimal digits. -/
def digitsVal (l : List Char) : Nat :=
  l.foldl (fun a c => 10 * a + (c.toNat - 48)) 0

/-- Modelled from Go `strconv.ParseInt(s, 10, 0)` (also `strconv.Atoi`):
an optional sign followed by at least one decimal digit. 64-bit overflow is
not modelled; no claim exercises it. -/
def parseInt (s : String) : Option Int :=
  let core : List Char → Option Int := fun l =>
    if l ≠ [] ∧ l.all Char.isDigit then some (digitsVal l : Int) else none
  match s.data with
  | '+' :: rest => core rest
  | '-' :: rest => (core rest).map Neg.neg
  | l => core l

/-- Decimal body of a float literal: digits, optionally a point and more
digits, at least one digit in total. -/
def parseFloatCore (l : List Char) : Option Rat :=
  let ip := l.takeWhile Char.isDigit
  let rest := l.dropWhile Char.isDigit
  match rest with
  | [] => if ip = [] then none else some (digitsVal ip : Rat)
  | '.' :: frac =>
    if (ip = [] ∧ frac = []) ∨ ¬ frac.all Char.isDigit then none
    else some ((digitsVal ip : Rat) + (digitsVal frac : Rat) / ((10 : Rat) ^ frac.length))
  | _ => none

/-- Modelled from Go `strconv.ParseFloat` restricted to plain decimal
literals with an optional sign; exponent, hexadecimal and inf/nan forms are
not modelled (no claim exercises them). The result is an exact rational:
the source only copies these values and compares them with zero. -/
def parseFloat (s : String) : Option Rat :=
  match s.data with
  | '+' :: rest => parseFloatCore rest
  | '-' :: rest => (parseFloatCore rest).map Neg.neg
  | l => parseFloatCore l

/-- The recurring Go block
`if s := os.Getenv(name); s != "" { v, err := strconv.ParseBool(s); if err
!= nil { return err } ... }`: `ok none` when the variable is unset or empty,
`ok (some v)` on a successful parse, `error` on a malformed value. -/
def readBoolEnv (env : Env) (name : String) : Except String (Option Bool) :=
  let s := getEnv env name
  if s = "" then .ok none
  else
    match parseBool s with
    | some b => .ok (some b)
    | none => .error ("failed to parse " ++ name ++ ": " ++ s)

/-- The integer variant of `readBoolEnv` (`strconv.ParseInt` / `Atoi`). -/
def readIntEnv (env : Env) (name : String) : Except String (Option Int) :=
  let s := getEnv env name
  if s = "" then .ok none
  else
    match parseInt s with
    | some v => .ok (some v)
    | none => .error ("failed to parse " ++ name ++ ": " ++ s)

/-- The float variant of `readBoolEnv` (`strconv.ParseFloat`). -/
def readFloatEnv (env : Env) (name : String) : Except String (Option Rat) :=
  let s := getEnv env name
  if s = "" then .ok none
  else
    match parseFloat s with
    | some v => .ok (some v)
    | none => .error ("failed to parse " ++ name ++ ": " ++ s)

/-! ## Rate limit override resolver (lines 376-469) -/

/-- `overrideDefaultRateLimitConfig` (lines 442-469): `nil` override yields
the (shared) defaults; an override whose enabled flag is false yields a
policy with only that flag set; an enabled override has each zero numeric
field filled from the resolved defaults. -/
def overrideDefaultRateLimitConfig (defaults : RateLimitConfig) :
    Option RateLimitConfig → RateLimitConfig
  | none => defaults
  | some config =>
    if ¬ config.CloudProviderRateLimit then
      { RateLimitConfig.zero with CloudProviderRateLimit := false }
    else
      { config with
        CloudProviderRateLimitQPS :=
          if config.CloudProviderRateLimitQPS = 0 then
            defaults.CloudProviderRateLimitQPS
          else config.CloudProviderRateLimitQPS
        CloudProviderRateLimitBucket :=
          if config.CloudProviderRateLimitBucket = 0 then
            defaults.CloudProviderRateLimitBucket
          else config.CloudProviderRateLimitBucket
        CloudProviderRateLimitQPSWrite :=
          if config.CloudProviderRateLimitQPSWrite = 0 then
            defaults.CloudProviderRateLimitQPSWrite
          else config.CloudProviderRateLimitQPSWrite
        CloudProviderRateLimitBucketWrite :=
          if config.CloudProviderRateLimitBucketWrite = 0 then
            defaults.CloudProviderRateLimitBucketWrite
          else config.CloudProviderRateLimitBucketWrite }

/-- Lines 382-430 of `initializeCloudProviderRateLimitConfig`: resolve the
four numeric fields of the global default policy in order — a zero read
field from the environment or the hard default, a zero write field from the
environment or the just-resolved read field. -/
def resolveGlobalRateLimit (env : Env) (c : RateLimitConfig) :
    Except String RateLimitConfig := do
  let qps ←
    (if c.CloudProviderRateLimitQPS = 0 then
      (readFloatEnv env rateLimitReadQPSEnvVar).map (fun v => v.getD rateLimitQPSDefault)
    else pure c.CloudProviderRateLimitQPS)
  let bucket ←
    (if c.CloudProviderRateLimitBucket = 0 then
      (readIntEnv env rateLimitReadBucketsEnvVar).map (fun v => v.getD rateLimitBucketDefault)
    else pure c.CloudProviderRateLimitBucket)
  let qpsWrite ←
    (if c.CloudProviderRateLimitQPSWrite = 0 then
      (readFloatEnv env rateLimitWriteQPSEnvVar).map (fun v => v.getD qps)
    else pure c.CloudProviderRateLimitQPSWrite)
  let bucketWrite ←
    (if c.CloudProviderRateLimitBucketWrite = 0 then
      (readIntEnv env rateLimitWriteBucketsEnvVar).map (fun v => v.getD bucket)
    else pure c.CloudProviderRateLimitBucketWrite)
  return {
      CloudProviderRateLimit := c.CloudProviderRateLimit
      CloudProviderRateLimitQPS := qps
      CloudProviderRateLimitBucket := bucket
      CloudProviderRateLimitQPSWrite := qpsWrite
      CloudProviderRateLimitBucketWrite := bucketWrite }

/-- `initializeCloudProviderRateLimitConfig` (lines 376-440) on a non-nil
config (the only way the source calls it): resolve the global default
(lines 382-430), then run the per-kind override resolver against it
(lines 432-437). -/
def initializeCloudProviderRateLimitConfig (env : Env)
    (config : CloudProviderRateLimitConfig) :
    Except String CloudProviderRateLimitConfig := do
  let d ← resolveGlobalRateLimit env config.rateLimitConfig
  return {
      rateLimitConfig := d
      InterfaceRateLimit := some (overrideDefaultRateLimitConfig d config.InterfaceRateLimit)
      VirtualMachineRateLimit := some (overrideDefaultRateLimitConfig d config.VirtualMachineRateLimit)
      StorageAccountRateLimit := some (overrideDefaultRateLimitConfig d config.StorageAccountRateLimit)
      DiskRateLimit := some (overrideDefaultRateLimitConfig d config.DiskRateLimit)
      VirtualMachineScaleSetRateLimit := some (overrideDefaultRateLimitConfig d config.VirtualMachineScaleSetRateLimit)
      KubernetesServiceRateLimit := some (overrideDefaultRateLimitConfig d config.KubernetesServiceRateLimit) }

/-! ## TrimSpace and validate (lines 496-556) -/

/-- Go `unicode.IsSpace` restricted to the Latin-1 range (ASCII whitespace
plus NEL and NBSP); the wider Unicode space category is not modelled — no
claim uses whitespace beyond the plain blank. -/
def isGoSpace (c : Char) : Bool :=
  c = ' ' ∨ c = '\t' ∨ c = '\n' ∨ c = '\x0b' ∨ c = '\x0c' ∨ c = '\r' ∨
    c = '\x85' ∨ c = '\xa0'

/-- Modelled from Go `strings.ToLower` restricted to ASCII (every VM-type
tag the source compares against is ASCII). -/
def toLowerString (s : String) : String := ⟨s.data.map Char.toLower⟩

/-- Modelled from Go `strings.TrimSpace` (standard library): drop leading
and trailing whitespace. -/
def trimString (s : String) : String :=
  ⟨((s.data.dropWhile isGoSpace).reverse.dropWhile isGoSpace).reverse⟩

/-- `Config.TrimSpace` (lines 496-511): trims exactly the thirteen fields
listed in the source. -/
def Config.trimSpace (cfg : Config) : Config :=
  { cfg with
    Cloud := trimString cfg.Cloud
    Location := trimString cfg.Location
    TenantID := trimString cfg.TenantID
    SubscriptionID := trimString cfg.SubscriptionID
    ClusterName := trimString cfg.ClusterName
    ResourceGroup := trimString cfg.ResourceGroup
    ClusterResourceGroup := trimString cfg.ClusterResourceGroup
    VMType := trimString cfg.VMType
    AADClientID := trimString cfg.AADClientID
    AADClientSecret := trimString cfg.AADClientSecret
    AADClientCertPath := trimString cfg.AADClientCertPath
    AADClientCertPassword := trimString cfg.AADClientCertPassword
    Deployment := trimString cfg.Deployment }

/-- The `switch cfg.AuthMethod` arm of `validate` (lines 540-549). -/
def Config.validateAuth (cfg : Config) : Option String :=
  if cfg.AuthMethod = "" ∨ cfg.AuthMethod = authMethodPrincipal then
    if cfg.AADClientID = "" then some "ARM Client ID not set" else none
  else if cfg.AuthMethod = authMethodCLI then none
  else some ("unsupported authorization method: " ++ cfg.AuthMethod)

/-- `Config.validate` (lines 513-556): `none` means the Go method returned
`nil`, `some msg` the error it returned. -/
def Config.validate (cfg : Config) : Option String :=
  if cfg.ResourceGroup = "" then some "resource group not set"
  else if cfg.VMType = vmTypeStandard ∧ cfg.Deployment = "" then
    some "deployment not set"
  else if cfg.VMType = vmTypeStandard ∧ cfg.DeploymentParameters = [] then
    some "deploymentParameters not set"
  else if cfg.SubscriptionID = "" then some "subscription ID not set"
  else if cfg.UseManagedIdentityExtension then none
  else if cfg.TenantID = "" then some "tenant ID not set"
  else
    match cfg.validateAuth with
    | some e => some e
    | none =>
      if cfg.CloudProviderBackoff ∧ cfg.CloudProviderBackoffRetries = 0 then
        some "Cloud provider backoff is enabled but retries are not set"
      else none

/-! ## BuildAzureConfig (lines 157-374) -/

/-- `getSubscriptionIdFromInstanceMetadata` (lines 558-575). The
instance-metadata query (`NewInstanceMetadataService` + `GetMetadata`,
implemented outside this file) is passed in as its result `imds`. -/
def getSubscriptionIdFromInstanceMetadata (env : Env)
    (imds : Except String String) : Except String String :=
  match lookupEnv env "ARM_SUBSCRIPTION_ID" with
  | none => imds
  | some subscriptionID => .ok subscriptionID

/-- Lines 172-188 of the environment-derived path: the infallible string
reads. -/
def envStringStage (env : Env) (cfg : Config) : Config :=
  let cfg := { cfg with
    Cloud := getEnv env "ARM_CLOUD"
    Location := getEnv env "LOCATION"
    ResourceGroup := getEnv env "ARM_RESOURCE_GROUP"
    TenantID := getEnv env "ARM_TENANT_ID" }
  let cfg :=
    if getEnv env "AZURE_TENANT_ID" ≠ "" then
      { cfg with TenantID := getEnv env "AZURE_TENANT_ID" }
    else cfg
  let cfg := { cfg with AADClientID := getEnv env "ARM_CLIENT_ID" }
  let cfg :=
    if getEnv env "AZURE_CLIENT_ID" ≠ "" then
      { cfg with AADClientID := getEnv env "AZURE_CLIENT_ID" }
    else cfg
  { cfg with
    AADFederatedTokenFile := getEnv env "AZURE_FEDERATED_TOKEN_FILE"
    AADClientSecret := getEnv env "ARM_CLIENT_SECRET"
    VMType := toLowerString (getEnv env "ARM_VM_TYPE")
    AADClientCertPath := getEnv env "ARM_CLIENT_CERT_PATH"
    AADClientCertPassword := getEnv env "ARM_CLIENT_CERT_PASSWORD"
    Deployment := getEnv env "ARM_DEPLOYMENT" }

/-- The fatal configuration-conflict error of lines 212-214. -/
def conflictingIdentityMsg : String :=
  "you can not combine both managed identity and workload identity as an authentication mechanism"

/-- Lines 190-219: subscription id, the two identity-delegation flags, the
conflict check between them, and the user-assigned identity id. -/
def envIdentityStage (env : Env) (imds : Except String String) (cfg : Config) :
    Except String Config := do
  let subscriptionID ← getSubscriptionIdFromInstanceMetadata env imds
  let cfg := { cfg with SubscriptionID := subscriptionID }
  let useManaged ← readBoolEnv env "ARM_USE_MANAGED_IDENTITY_EXTENSION"
  let cfg := { cfg with
    UseManagedIdentityExtension := useManaged.getD cfg.UseManagedIdentityExtension }
  let useWorkload ← readBoolEnv env "ARM_USE_WORKLOAD_IDENTITY_EXTENSION"
  let cfg := { cfg with
    UseWorkloadIdentityExtension := useWorkload.getD cfg.UseWorkloadIdentityExtension }
  if cfg.UseManagedIdentityExtension ∧ cfg.UseWorkloadIdentityExtension then
    throw conflictingIdentityMsg
  else
    pure (if getEnv env "ARM_USER_ASSIGNED_IDENTITY_ID" ≠ "" then
        { cfg with UserAssignedIdentityID := getEnv env "ARM_USER_ASSIGNED_IDENTITY_ID" }
      else cfg)

/-- Lines 221-281: cache TTLs, deployment retention, the backoff-enable
flag and the three toggles with their defaults. -/
def envCacheStage (env : Env) (cfg : Config) : Except String Config := do
  let vmssCacheTTL ← readIntEnv env "AZURE_VMSS_CACHE_TTL"
  let cfg := { cfg with VmssCacheTTL := vmssCacheTTL.getD cfg.VmssCacheTTL }
  let vmssVmsCacheTTL ← readIntEnv env "AZURE_VMSS_VMS_CACHE_TTL"
  let cfg := { cfg with VmssVmsCacheTTL := vmssVmsCacheTTL.getD cfg.VmssVmsCacheTTL }
  let vmssVmsCacheJitter ← readIntEnv env "AZURE_VMSS_VMS_CACHE_JITTER"
  let cfg := { cfg with VmssVmsCacheJitter := vmssVmsCacheJitter.getD cfg.VmssVmsCacheJitter }
  let threshold ← readIntEnv env "AZURE_MAX_DEPLOYMENT_COUNT"
  let cfg := { cfg with MaxDeploymentsCount := threshold.getD cfg.MaxDeploymentsCount }
  let enableBackoff ← readBoolEnv env "ENABLE_BACKOFF"
  let cfg := { cfg with CloudProviderBackoff := enableBackoff.getD cfg.CloudProviderBackoff }
  let enableDynamicInstanceList ← readBoolEnv env "AZURE_ENABLE_DYNAMIC_INSTANCE_LIST"
  let cfg := { cfg with
    EnableDynamicInstanceList := enableDynamicInstanceList.getD dynamicInstanceListDefault }
  let refreshPeriod ← readIntEnv env "AZURE_GET_VMSS_SIZE_REFRESH_PERIOD"
  let cfg := { cfg with
    GetVmssSizeRefreshPeriod := refreshPeriod.getD VmssSizeRefreshPeriodDefault }
  let enableVmssFlex ← readBoolEnv env "AZURE_ENABLE_VMSS_FLEX"
  let cfg := { cfg with EnableVmssFlex := enableVmssFlex.getD enableVmssFlexDefault }
  return cfg

/-- Lines 283-321: the backoff policy builder, which only runs when the
backoff flag is on. -/
def envBackoffStage (env : Env) (cfg : Config) : Except String Config := do
  if cfg.CloudProviderBackoff then
    let retries ← readIntEnv env "BACKOFF_RETRIES"
    let exponent ← readFloatEnv env "BACKOFF_EXPONENT"
    let duration ← readIntEnv env "BACKOFF_DURATION"
    let jitter ← readFloatEnv env "BACKOFF_JITTER"
    return { cfg with
      CloudProviderBackoffRetries := retries.getD backoffRetriesDefault
      CloudProviderBackoffExponent := exponent.getD backoffExponentDefault
      CloudProviderBackoffDuration := duration.getD backoffDurationDefault
      CloudProviderBackoffJitter := jitter.getD backoffJitterDefault }
  else
    return cfg

/-- The environment-derived loading path (lines 171-322, the `else` branch
of `BuildAzureConfig`). -/
def buildFromEnv (env : Env) (imds : Except String String) :
    Except String Config :=
  envIdentityStage env imds (envStringStage env Config.empty) >>=
    envCacheStage env >>= envBackoffStage env

/-- Lines 324-336: the three always-from-environment fields, `TrimSpace`
and the late `CLOUD_PROVIDER_RATE_LIMIT` read. -/
def finishNormalizeStage (env : Env) (cfg : Config) : Except String Config := do
  let cfg := { cfg with
    ClusterName := getEnv env "CLUSTER_NAME"
    ClusterResourceGroup := getEnv env "ARM_CLUSTER_RESOURCE_GROUP"
    ARMBaseURLForAPClient := getEnv env "ARM_BASE_URL_FOR_AP_CLIENT" }
  let cfg := cfg.trimSpace
  let rateLimitOn ← readBoolEnv env "CLOUD_PROVIDER_RATE_LIMIT"
  let cfg :=
    match rateLimitOn with
    | some b =>
      { cfg with cloudProviderRateLimitConfig.rateLimitConfig.CloudProviderRateLimit := b }
    | none => cfg
  return cfg

/-- Lines 338-373: the force-delete read, rate-limit resolution, the
VM-type default, the deployment-parameters provider (passed in as its
result `deployParams`), the max-deployments default and `validate`. -/
def finishResolveStage (env : Env) (deployParams : Except String (List String))
    (cfg : Config) : Except String Config := do
  let enableForceDelete ← readBoolEnv env "AZURE_ENABLE_FORCE_DELETE"
  let cfg := { cfg with EnableForceDelete := enableForceDelete.getD cfg.EnableForceDelete }
  let rlc ← initializeCloudProviderRateLimitConfig env cfg.cloudProviderRateLimitConfig
  let cfg := { cfg with cloudProviderRateLimitConfig := rlc }
  let cfg := if cfg.VMType = "" then { cfg with VMType := vmTypeVMSS } else cfg
  let cfg ←
    (if cfg.VMType = vmTypeStandard ∧ cfg.DeploymentParameters = [] then
      deployParams.map (fun parameters => { cfg with DeploymentParameters := parameters })
    else pure cfg)
  let cfg :=
    if cfg.MaxDeploymentsCount = 0 then
      { cfg with MaxDeploymentsCount := defaultMaxDeploymentsCount }
    else cfg
  match cfg.validate with
  | some e => throw e
  | none => return cfg

/-- Lines 324-373, run after either loading path. -/
def finishConfig (env : Env) (deployParams : Except String (List String))
    (cfg : Config) : Except String Config :=
  finishNormalizeStage env cfg >>= finishResolveStage env deployParams

/-- `BuildAzureConfig` (lines 157-374). A supplied payload (`configReader`)
arrives already deserialized — the claims under study never exercise a
read or unmarshal failure — and the environment-derived path runs only
when no payload is supplied; both paths then share the tail. -/
def BuildAzureConfig (payload : Option Config) (env : Env)
    (imds : Except String String) (deployParams : Except String (List String)) :
    Except String Config :=
  match payload with
  | some cfg => finishConfig env deployParams cfg
  | none => buildFromEnv env imds >>= finishConfig env deployParams

/-! ## JSON field-absence model for the per-resource overrides -/

/-- The JSON shape of one per-resource rate-limit override: every field may
be absent. Modelled from Go `encoding/json` unmarshalling into
`azclients.RateLimitConfig`: a field absent from the JSON object leaves the
Go zero value in place. -/
structure RateLimitConfigJson where
  cloudProviderRateLimit : Option Bool
  cloudProviderRateLimitQPS : Option Rat
  cloudProviderRateLimitBucket : Option Int
  cloudProviderRateLimitQPSWrite : Option Rat
  cloudProviderRateLimitBucketWrite : Option Int
  deriving Repr, DecidableEq

/-- Unmarshal one override object: absent fields decode to the zero value. -/
def decodeRateLimitConfig (j : RateLimitConfigJson) : RateLimitConfig :=
  { CloudProviderRateLimit := j.cloudProviderRateLimit.getD false
    CloudProviderRateLimitQPS := j.cloudProviderRateLimitQPS.getD 0
    CloudProviderRateLimitBucket := j.cloudProviderRateLimitBucket.getD 0
    CloudProviderRateLimitQPSWrite := j.cloudProviderRateLimitQPSWrite.getD 0
    CloudProviderRateLimitBucketWrite := j.cloudProviderRateLimitBucketWrite.getD 0 }

/-! ## Helper lemmas about the `Except` plumbing and the typed reads -/

theorem ok_bind {ε α β : Type} (a : α) (f : α → Except ε β) :
    (Except.ok a >>= f) = f a := rfl

theorem error_bind {ε α β : Type} (e : ε) (f : α → Except ε β) :
    ((Except.error e : Except ε α) >>= f) = .error e := rfl

theorem throw_eq {α : Type} (e : String) :
    (throw e : Except String α) = .error e := rfl

theorem pure_eq_ok {ε α : Type} (a : α) : (pure a : Except ε α) = .ok a := rfl

theorem map_ok_eq {ε α β : Type} (f : α → β) (a : α) :
    Except.map f (Except.ok a : Except ε α) = .ok (f a) := rfl

theorem map_error_eq {ε α β : Type} (f : α → β) (e : ε) :
    Except.map f (Except.error e : Except ε α) = .error e := rfl

theorem bindEqOk {ε α β : Type} {x : Except ε α} {f : α → Except ε β} {b : β}
    (h : x >>= f = .ok b) : ∃ a, x = .ok a ∧ f a = .ok b := by
  cases x with
  | error e => rw [error_bind] at h; exact absurd h (fun hh => Except.noConfusion hh)
  | ok a => rw [ok_bind] at h; exact ⟨a, rfl, h⟩

theorem parseBool_ne_empty {s : String} {b : Bool} (h : parseBool s = some b) :
    s ≠ "" := by
  intro he
  subst he
  simp [parseBool] at h

theorem readBoolEnv_of_some {env : Env} {n s : String} {b : Bool}
    (hs : env n = some s) (hp : parseBool s = some b) :
    readBoolEnv env n = .ok (some b) := by
  have hne := parseBool_ne_empty hp
  simp [readBoolEnv, getEnv, hs, hne, hp]

theorem readBoolEnv_of_none {env : Env} {n : String} (h : env n = none) :
    readBoolEnv env n = .ok none := by
  simp [readBoolEnv, getEnv, h]

theorem readIntEnv_of_none {env : Env} {n : String} (h : env n = none) :
    readIntEnv env n = .ok none := by
  simp [readIntEnv, getEnv, h]

theorem readFloatEnv_of_none {env : Env} {n : String} (h : env n = none) :
    readFloatEnv env n = .ok none := by
  simp [readFloatEnv, getEnv, h]

/-! ## C1: a disabled override discards its sibling fields -/

/-- C1: for every per-resource rate-limit override whose enabled flag is
false, whatever QPS/bucket values it carries, the override resolver yields
the policy with enabled = false and every numeric field zero. -/
theorem C1_disabled_override_discards_fields (defaults config : RateLimitConfig)
    (h : config.CloudProviderRateLimit = false) :
    overrideDefaultRateLimitConfig defaults (some config) =
      { CloudProviderRateLimit := false
        CloudProviderRateLimitQPS := 0
        CloudProviderRateLimitBucket := 0
        CloudProviderRateLimitQPSWrite := 0
        CloudProviderRateLimitBucketWrite := 0 } := by
  simp [overrideDefaultRateLimitConfig, h, RateLimitConfig.zero]

/-- Witness for C1: the disabled disk-style override `enabled=false, qps=99,
bucket=4, qpsWrite=3, bucketWrite=2` over the default `1/5/1/5` policy. -/
theorem C1_disabled_override_discards_fields_witness :
    (RateLimitConfig.mk false 99 4 3 2).CloudProviderRateLimit = false ∧
    overrideDefaultRateLimitConfig (RateLimitConfig.mk true 1 5 1 5)
        (some (RateLimitConfig.mk false 99 4 3 2)) =
      RateLimitConfig.mk false 0 0 0 0 :=
  ⟨rfl, C1_disabled_override_discards_fields _ _ rfl⟩

/-! ## C10: an absent enabled flag is indistinguishable from an explicit
false -/

/-- C10: an override object whose JSON omitted the enabled flag decodes to
the same `RateLimitConfig` as one that set it to false explicitly, so the
disable short-circuit fires: the effective policy is enabled = false with
all other fields zero even when the override supplied QPS/bucket values. -/
theorem C10_absent_enabled_flag_short_circuits (defaults : RateLimitConfig)
    (j : RateLimitConfigJson) (h : j.cloudProviderRateLimit = none) :
    decodeRateLimitConfig j =
      decodeRateLimitConfig { j with cloudProviderRateLimit := some false } ∧
    overrideDefaultRateLimitConfig defaults (some (decodeRateLimitConfig j)) =
      RateLimitConfig.mk false 0 0 0 0 := by
  refine ⟨by simp [decodeRateLimitConfig, h], ?_⟩
  exact C1_disabled_override_discards_fields defaults _ (by simp [decodeRateLimitConfig, h])

/-- Witness for C10: the override JSON `qps: 99` with no enabled flag. -/
theorem C10_absent_enabled_flag_short_circuits_witness :
    (RateLimitConfigJson.mk none (some 99) none none none).cloudProviderRateLimit = none ∧
    (decodeRateLimitConfig (RateLimitConfigJson.mk none (some 99) none none none) =
      decodeRateLimitConfig (RateLimitConfigJson.mk (some false) (some 99) none none none) ∧
    overrideDefaultRateLimitConfig (RateLimitConfig.mk true 1 5 1 5)
        (some (decodeRateLimitConfig (RateLimitConfigJson.mk none (some 99) none none none))) =
      RateLimitConfig.mk false 0 0 0 0) :=
  ⟨rfl, C10_absent_enabled_flag_short_circuits (RateLimitConfig.mk true 1 5 1 5) _ rfl⟩

/-! ## C6: kinds with no override share the resolved global default -/

/-- C6: for every resource kind whose override is absent, the effective
policy after rate-limit resolution is exactly the resolved global default
policy. -/
theorem C6_no_override_inherits_global (env : Env)
    (config out : CloudProviderRateLimitConfig)
    (hres : initializeCloudProviderRateLimitConfig env config = .ok out) :
    (config.InterfaceRateLimit = none →
      out.InterfaceRateLimit = some out.rateLimitConfig) ∧
    (config.VirtualMachineRateLimit = none →
      out.VirtualMachineRateLimit = some out.rateLimitConfig) ∧
    (config.StorageAccountRateLimit = none →
      out.StorageAccountRateLimit = some out.rateLimitConfig) ∧
    (config.DiskRateLimit = none →
      out.DiskRateLimit = some out.rateLimitConfig) ∧
    (config.VirtualMachineScaleSetRateLimit = none →
      out.VirtualMachineScaleSetRateLimit = some out.rateLimitConfig) ∧
    (config.KubernetesServiceRateLimit = none →
      out.KubernetesServiceRateLimit = some out.rateLimitConfig) := by
  unfold initializeCloudProviderRateLimitConfig at hres
  obtain ⟨d, hd, hres⟩ := bindEqOk hres
  rw [pure_eq_ok] at hres
  cases hres
  refine ⟨fun h => ?_, fun h => ?_, fun h => ?_, fun h => ?_, fun h => ?_, fun h => ?_⟩ <;>
    simp [h, overrideDefaultRateLimitConfig]

/-- Witness input for C6: the zero rate-limit config with no overrides. -/
def rlcZero : CloudProviderRateLimitConfig :=
  { rateLimitConfig := RateLimitConfig.zero
    InterfaceRateLimit := none
    VirtualMachineRateLimit := none
    StorageAccountRateLimit := none
    DiskRateLimit := none
    VirtualMachineScaleSetRateLimit := none
    KubernetesServiceRateLimit := none }

/-- The concrete value `initializeCloudProviderRateLimitConfig` produces on
`rlcZero` under the empty environment. -/
def rlcZeroResolved : CloudProviderRateLimitConfig :=
  (initializeCloudProviderRateLimitConfig emptyEnv rlcZero).toOption.getD rlcZero

/-- Witness for C6: applied to `rlcZero` under the empty environment. -/
theorem C6_no_override_inherits_global_witness :
    (rlcZero.InterfaceRateLimit = none →
      rlcZeroResolved.InterfaceRateLimit = some rlcZeroResolved.rateLimitConfig) ∧
    (rlcZero.VirtualMachineRateLimit = none →
      rlcZeroResolved.VirtualMachineRateLimit = some rlcZeroResolved.rateLimitConfig) ∧
    (rlcZero.StorageAccountRateLimit = none →
      rlcZeroResolved.StorageAccountRateLimit = some rlcZeroResolved.rateLimitConfig) ∧
    (rlcZero.DiskRateLimit = none →
      rlcZeroResolved.DiskRateLimit = some rlcZeroResolved.rateLimitConfig) ∧
    (rlcZero.VirtualMachineScaleSetRateLimit = none →
      rlcZeroResolved.VirtualMachineScaleSetRateLimit = some rlcZeroResolved.rateLimitConfig) ∧
    (rlcZero.KubernetesServiceRateLimit = none →
      rlcZeroResolved.KubernetesServiceRateLimit = some rlcZeroResolved.rateLimitConfig) :=
  C6_no_override_inherits_global emptyEnv rlcZero rlcZeroResolved rfl

/-! ## C8: managed identity short-circuits validation -/

/-- C8: with a non-empty resource group and subscription id, the
deployment-mode rules satisfied, and the managed-identity flag enabled,
`validate` returns no error — whatever the tenant id, client id,
authentication method or backoff retry count. -/
theorem C8_managed_identity_validates (cfg : Config)
    (hrg : cfg.ResourceGroup ≠ "")
    (hstd : cfg.VMType = vmTypeStandard →
      cfg.Deployment ≠ "" ∧ cfg.DeploymentParameters ≠ [])
    (hsub : cfg.SubscriptionID ≠ "")
    (hmi : cfg.UseManagedIdentityExtension = true) :
    cfg.validate = none := by
  have h2 : ¬(cfg.VMType = vmTypeStandard ∧ cfg.Deployment = "") :=
    fun hh => (hstd hh.1).1 hh.2
  have h3 : ¬(cfg.VMType = vmTypeStandard ∧ cfg.DeploymentParameters = []) :=
    fun hh => (hstd hh.1).2 hh.2
  simp [Config.validate, hrg, hsub, hmi, h2, h3]

/-- Witness input for C8: empty tenant id, empty client id, an unsupported
authentication method and enabled backoff with zero retries — validation
still succeeds because the managed-identity flag is set. -/
def cfgManagedOnly : Config :=
  { Config.empty with
    ResourceGroup := "rg"
    SubscriptionID := "sub"
    UseManagedIdentityExtension := true
    AuthMethod := "bogus"
    CloudProviderBackoff := true
    CloudProviderBackoffRetries := 0 }

/-- Witness for C8: applied to `cfgManagedOnly`. -/
theorem C8_managed_identity_validates_witness :
    cfgManagedOnly.ResourceGroup ≠ "" ∧
    (cfgManagedOnly.VMType = vmTypeStandard →
      cfgManagedOnly.Deployment ≠ "" ∧ cfgManagedOnly.DeploymentParameters ≠ []) ∧
    cfgManagedOnly.SubscriptionID ≠ "" ∧
    cfgManagedOnly.UseManagedIdentityExtension = true ∧
    cfgManagedOnly.validate = none :=
  ⟨by decide, fun hh => absurd hh (by decide), by decide, rfl,
    C8_managed_identity_validates cfgManagedOnly (by decide)
      (fun hh => absurd hh (by decide)) (by decide) rfl⟩

/-! ## C9: deployment-based mode requires a deployment name and
parameters -/

/-- Under an environment that sets none of the rate-limit variables, the
global rate-limit resolution cannot fail. -/
theorem resolveGlobalRateLimit_ok_of_unset (env : Env) (c : RateLimitConfig)
    (h1 : env rateLimitReadQPSEnvVar = none)
    (h2 : env rateLimitReadBucketsEnvVar = none)
    (h3 : env rateLimitWriteQPSEnvVar = none)
    (h4 : env rateLimitWriteBucketsEnvVar = none) :
    ∃ d, resolveGlobalRateLimit env c = .ok d := by
  by_cases hq : c.CloudProviderRateLimitQPS = 0 <;>
  by_cases hb : c.CloudProviderRateLimitBucket = 0 <;>
  by_cases hw : c.CloudProviderRateLimitQPSWrite = 0 <;>
  by_cases hbw : c.CloudProviderRateLimitBucketWrite = 0 <;>
  simp [resolveGlobalRateLimit, readFloatEnv_of_none h1, readIntEnv_of_none h2,
    readFloatEnv_of_none h3, readIntEnv_of_none h4, hq, hb, hw, hbw, ok_bind,
    pure_eq_ok, map_ok_eq]

/-- C9: in deployment-based ("standard") mode an empty deployment name is a
validation error naming the field; a deployment-parameters mapping that is
still empty (after the provider was consulted) is a validation error naming
the field; and in the resolution tail, when the provider yields an empty
mapping, resolution indeed fails with that validation error. -/
theorem C9_standard_mode_requires_deployment :
    (∀ cfg : Config, cfg.ResourceGroup ≠ "" → cfg.VMType = vmTypeStandard →
      cfg.Deployment = "" → cfg.validate = some "deployment not set") ∧
    (∀ cfg : Config, cfg.ResourceGroup ≠ "" → cfg.VMType = vmTypeStandard →
      cfg.Deployment ≠ "" → cfg.DeploymentParameters = [] →
      cfg.validate = some "deploymentParameters not set") ∧
    (∀ (env : Env) (cfg : Config),
      env "AZURE_ENABLE_FORCE_DELETE" = none →
      env rateLimitReadQPSEnvVar = none →
      env rateLimitReadBucketsEnvVar = none →
      env rateLimitWriteQPSEnvVar = none →
      env rateLimitWriteBucketsEnvVar = none →
      cfg.ResourceGroup ≠ "" → cfg.VMType = vmTypeStandard →
      cfg.Deployment ≠ "" → cfg.DeploymentParameters = [] →
      finishResolveStage env (.ok []) cfg =
        .error "deploymentParameters not set") := by
  refine ⟨fun cfg hrg hvm hd => ?_, fun cfg hrg hvm hd hdp => ?_,
    fun env cfg h0 h1 h2 h3 h4 hrg hvm hd hdp => ?_⟩
  · simp [Config.validate, hrg, hvm, hd]
  · simp [Config.validate, hrg, hvm, hd, hdp]
  · obtain ⟨d, hres⟩ := resolveGlobalRateLimit_ok_of_unset env
      cfg.cloudProviderRateLimitConfig.rateLimitConfig h1 h2 h3 h4
    have hfd := readBoolEnv_of_none h0
    by_cases hm : cfg.MaxDeploymentsCount = 0 <;>
      simp [finishResolveStage, initializeCloudProviderRateLimitConfig, hfd, hres,
        ok_bind, pure_eq_ok, map_ok_eq, hvm, hdp, hm, Config.validate, hrg, hd,
        vmTypeStandard, throw_eq]

/-- Witness input for C9: a standard-VM-type config with an empty
deployment name. -/
def cfgStdNoDeployment : Config :=
  { Config.empty with
    ResourceGroup := "rg"
    SubscriptionID := "sub"
    VMType := "standard" }

/-- Witness input for C9: a standard-VM-type config with a deployment name
but no deployment parameters. -/
def cfgStdNoParams : Config :=
  { Config.empty with
    ResourceGroup := "rg"
    SubscriptionID := "sub"
    VMType := "standard"
    Deployment := "dep" }

/-- Witness for C9: both validator rules and the pipeline tail at concrete
inputs (provider yields the empty mapping). -/
theorem C9_standard_mode_requires_deployment_witness :
    cfgStdNoDeployment.validate = some "deployment not set" ∧
    cfgStdNoParams.validate = some "deploymentParameters not set" ∧
    finishResolveStage emptyEnv (.ok []) cfgStdNoParams =
      .error "deploymentParameters not set" :=
  ⟨C9_standard_mode_requires_deployment.1 cfgStdNoDeployment (by decide) rfl rfl,
   C9_standard_mode_requires_deployment.2.1 cfgStdNoParams (by decide) rfl (by decide) rfl,
   C9_standard_mode_requires_deployment.2.2 emptyEnv cfgStdNoParams rfl rfl rfl rfl rfl
     (by decide) rfl (by decide) rfl⟩

/-! ## C5: write fields inherit read fields only at the global level -/

/-- Counterexample input for C5: a global policy with distinct read and
write values, and an enabled disk override with every numeric field zero. -/
def rlcGlobalDistinct : CloudProviderRateLimitConfig :=
  { rateLimitConfig :=
      { CloudProviderRateLimit := true
        CloudProviderRateLimitQPS := 2
        CloudProviderRateLimitBucket := 3
        CloudProviderRateLimitQPSWrite := 7
        CloudProviderRateLimitBucketWrite := 9 }
    InterfaceRateLimit := none
    VirtualMachineRateLimit := none
    StorageAccountRateLimit := none
    DiskRateLimit := some
      { CloudProviderRateLimit := true
        CloudProviderRateLimitQPS := 0
        CloudProviderRateLimitBucket := 0
        CloudProviderRateLimitQPSWrite := 0
        CloudProviderRateLimitBucketWrite := 0 }
    VirtualMachineScaleSetRateLimit := none
    KubernetesServiceRateLimit := none }

/-- Counterexample for C5: under the empty environment the resolved read
QPS is 2, yet the enabled disk override with a zero write QPS ends up with
write QPS 7 (the global write value), not the resolved read QPS 2 — the
claimed read-inheritance does not hold for per-resource overrides. -/
theorem C5_write_inherits_read_counterexample :
    (initializeCloudProviderRateLimitConfig emptyEnv rlcGlobalDistinct).map
      (fun c => (c.rateLimitConfig.CloudProviderRateLimitQPS,
        c.DiskRateLimit.map (fun r => r.CloudProviderRateLimitQPSWrite))) =
      .ok (2, some 7) ∧ (7 : Rat) ≠ 2 :=
  ⟨rfl, by decide⟩

/-- C5 (amended): a zero global write QPS (or bucket) is defaulted to the
resolved global read QPS (or bucket) unless the write environment override
supplies it; a zero write field of an enabled per-resource override instead
inherits the resolved global default's *write* field. -/
theorem C5_write_inheritance_amended :
    (∀ (env : Env) (c d : RateLimitConfig),
      c.CloudProviderRateLimitQPSWrite = 0 →
      c.CloudProviderRateLimitBucketWrite = 0 →
      env rateLimitWriteQPSEnvVar = none →
      env rateLimitWriteBucketsEnvVar = none →
      resolveGlobalRateLimit env c = .ok d →
      d.CloudProviderRateLimitQPSWrite = d.CloudProviderRateLimitQPS ∧
      d.CloudProviderRateLimitBucketWrite = d.CloudProviderRateLimitBucket) ∧
    (∀ defaults c : RateLimitConfig, c.CloudProviderRateLimit = true →
      (c.CloudProviderRateLimitQPSWrite = 0 →
        (overrideDefaultRateLimitConfig defaults (some c)).CloudProviderRateLimitQPSWrite =
          defaults.CloudProviderRateLimitQPSWrite) ∧
      (c.CloudProviderRateLimitBucketWrite = 0 →
        (overrideDefaultRateLimitConfig defaults (some c)).CloudProviderRateLimitBucketWrite =
          defaults.CloudProviderRateLimitBucketWrite)) := by
  constructor
  · intro env c d hw0 hbw0 h3 h4 hres
    unfold resolveGlobalRateLimit at hres
    obtain ⟨qps, hq, hres⟩ := bindEqOk hres
    obtain ⟨bucket, hb, hres⟩ := bindEqOk hres
    obtain ⟨qpsW, hw, hres⟩ := bindEqOk hres
    obtain ⟨bucketW, hbw, hres⟩ := bindEqOk hres
    rw [pure_eq_ok] at hres
    cases hres
    rw [if_pos hw0, readFloatEnv_of_none h3, map_ok_eq] at hw
    rw [if_pos hbw0, readIntEnv_of_none h4, map_ok_eq] at hbw
    cases hw
    cases hbw
    simp
  · intro defaults c hc
    constructor <;> intro h0 <;> simp [overrideDefaultRateLimitConfig, hc, h0]

/-- Witness for C5 (amended): the zero policy resolves under the empty
environment with write = read = the defaults, and an all-zero enabled disk
override over the distinct global policy inherits the global write values. -/
theorem C5_write_inheritance_amended_witness :
    (RateLimitConfig.zero.CloudProviderRateLimitQPSWrite = 0 ∧
     RateLimitConfig.zero.CloudProviderRateLimitBucketWrite = 0 ∧
     (rlcZeroResolved.rateLimitConfig.CloudProviderRateLimitQPSWrite =
        rlcZeroResolved.rateLimitConfig.CloudProviderRateLimitQPS ∧
      rlcZeroResolved.rateLimitConfig.CloudProviderRateLimitBucketWrite =
        rlcZeroResolved.rateLimitConfig.CloudProviderRateLimitBucket)) ∧
    ((RateLimitConfig.mk true 0 0 0 0).CloudProviderRateLimit = true ∧
     ((RateLimitConfig.mk true 0 0 0 0).CloudProviderRateLimitQPSWrite = 0 →
       (overrideDefaultRateLimitConfig (RateLimitConfig.mk true 2 3 7 9)
         (some (RateLimitConfig.mk true 0 0 0 0))).CloudProviderRateLimitQPSWrite =
       (RateLimitConfig.mk true 2 3 7 9).CloudProviderRateLimitQPSWrite)) :=
  ⟨⟨rfl, rfl,
    C5_write_inheritance_amended.1 emptyEnv RateLimitConfig.zero
      rlcZeroResolved.rateLimitConfig rfl rfl rfl rfl rfl⟩,
   rfl,
   (C5_write_inheritance_amended.2 (RateLimitConfig.mk true 2 3 7 9)
      (RateLimitConfig.mk true 0 0 0 0) rfl).1⟩

/-! ## C4: which string fields TrimSpace normalizes -/

/-- Counterexample input for C4: an environment-derived configuration whose
`ARM_BASE_URL_FOR_AP_CLIENT` carries surrounding whitespace. -/
def envUntrimmedURL : Env := envOfList
  [("ARM_RESOURCE_GROUP", "rg"), ("ARM_SUBSCRIPTION_ID", "sub"),
   ("ARM_USE_MANAGED_IDENTITY_EXTENSION", "true"),
   ("ARM_BASE_URL_FOR_AP_CLIENT", " url ")]

/-- Counterexample for C4: resolution succeeds and the resolved
configuration's API base-URL override still carries its surrounding
whitespace — it is not trimmed. -/
theorem C4_trimspace_counterexample :
    (BuildAzureConfig none envUntrimmedURL (.error "imds unreachable")
        (.error "no parameters file")).map (fun c => c.ARMBaseURLForAPClient) =
      .ok " url " ∧
    trimString " url " = "url" :=
  ⟨rfl, rfl⟩

/-- C4 (amended): `TrimSpace` trims exactly the thirteen fields the source
lists — cloud, location, tenant id, subscription id, cluster name, resource
group, cluster resource group, VM type, client id, client secret,
certificate path, certificate password and deployment name — while the API
base-URL override, the auth-method tag, the federated-token file path and
the user-assigned-identity id pass through untouched. -/
theorem C4_trimspace_amended (cfg : Config) :
    cfg.trimSpace.Cloud = trimString cfg.Cloud ∧
    cfg.trimSpace.Location = trimString cfg.Location ∧
    cfg.trimSpace.TenantID = trimString cfg.TenantID ∧
    cfg.trimSpace.SubscriptionID = trimString cfg.SubscriptionID ∧
    cfg.trimSpace.ClusterName = trimString cfg.ClusterName ∧
    cfg.trimSpace.ResourceGroup = trimString cfg.ResourceGroup ∧
    cfg.trimSpace.ClusterResourceGroup = trimString cfg.ClusterResourceGroup ∧
    cfg.trimSpace.VMType = trimString cfg.VMType ∧
    cfg.trimSpace.AADClientID = trimString cfg.AADClientID ∧
    cfg.trimSpace.AADClientSecret = trimString cfg.AADClientSecret ∧
    cfg.trimSpace.AADClientCertPath = trimString cfg.AADClientCertPath ∧
    cfg.trimSpace.AADClientCertPassword = trimString cfg.AADClientCertPassword ∧
    cfg.trimSpace.Deployment = trimString cfg.Deployment ∧
    cfg.trimSpace.ARMBaseURLForAPClient = cfg.ARMBaseURLForAPClient ∧
    cfg.trimSpace.AuthMethod = cfg.AuthMethod ∧
    cfg.trimSpace.AADFederatedTokenFile = cfg.AADFederatedTokenFile ∧
    cfg.trimSpace.UserAssignedIdentityID = cfg.UserAssignedIdentityID :=
  ⟨rfl, rfl, rfl, rfl, rfl, rfl, rfl, rfl, rfl, rfl, rfl, rfl, rfl, rfl, rfl,
   rfl, rfl⟩

/-! ## C2: the conflicting-identity check -/

/-- Counterexample input for C2: a structured payload enabling both
identity-delegation flags (and otherwise valid). -/
def cfgBothIdentities : Config :=
  { Config.empty with
    ResourceGroup := "rg"
    SubscriptionID := "sub"
    UseManagedIdentityExtension := true
    UseWorkloadIdentityExtension := true
    VMType := "vmss" }

/-- Counterexample for C2: in the structured-payload path a configuration
with both identity flags enabled resolves successfully — no
conflicting-identity error is raised for payload inputs. -/
theorem C2_conflicting_identity_counterexample :
    cfgBothIdentities.UseManagedIdentityExtension = true ∧
    cfgBothIdentities.UseWorkloadIdentityExtension = true ∧
    (BuildAzureConfig (some cfgBothIdentities) emptyEnv (.error "imds unreachable")
      (.error "no parameters file")).isOk = true :=
  ⟨rfl, rfl, rfl⟩

/-- In the environment path, once both identity flags parse to true the
identity stage aborts with the conflicting-identity error. -/
theorem envIdentityStage_conflict (env : Env) (imds : Except String String)
    (cfg : Config) (sub s1 s2 : String)
    (hsub : env "ARM_SUBSCRIPTION_ID" = some sub)
    (h1 : env "ARM_USE_MANAGED_IDENTITY_EXTENSION" = some s1)
    (hp1 : parseBool s1 = some true)
    (h2 : env "ARM_USE_WORKLOAD_IDENTITY_EXTENSION" = some s2)
    (hp2 : parseBool s2 = some true) :
    envIdentityStage env imds cfg = .error conflictingIdentityMsg := by
  have hsubOk : getSubscriptionIdFromInstanceMetadata env imds = .ok sub := by
    unfold getSubscriptionIdFromInstanceMetadata lookupEnv
    rw [hsub]
  simp only [envIdentityStage, hsubOk, readBoolEnv_of_some h1 hp1,
    readBoolEnv_of_some h2 hp2, ok_bind, Option.getD, throw_eq]
  simp

/-- C2 (amended): only in the environment-derived path — the only path that
performs the check — does enabling both the managed-identity and the
workload-identity flag make resolution fail, with the conflicting-identity
error, before the validator runs; a structured payload with both flags set
is not rejected. -/
theorem C2_env_path_conflicting_identity (env : Env) (imds : Except String String)
    (dp : Except String (List String)) (sub s1 s2 : String)
    (hsub : env "ARM_SUBSCRIPTION_ID" = some sub)
    (h1 : env "ARM_USE_MANAGED_IDENTITY_EXTENSION" = some s1)
    (hp1 : parseBool s1 = some true)
    (h2 : env "ARM_USE_WORKLOAD_IDENTITY_EXTENSION" = some s2)
    (hp2 : parseBool s2 = some true) :
    BuildAzureConfig none env imds dp = .error conflictingIdentityMsg := by
  have hid := envIdentityStage_conflict env imds (envStringStage env Config.empty)
    sub s1 s2 hsub h1 hp1 h2 hp2
  unfold BuildAzureConfig buildFromEnv
  rw [hid, error_bind, error_bind, error_bind]

/-- Witness environment for C2: both identity flags set to `"true"`. -/
def envBothIdentities : Env := envOfList
  [("ARM_SUBSCRIPTION_ID", "sub"),
   ("ARM_USE_MANAGED_IDENTITY_EXTENSION", "true"),
   ("ARM_USE_WORKLOAD_IDENTITY_EXTENSION", "true")]

/-- Witness for C2 (amended): under `envBothIdentities` resolution fails
with the conflicting-identity error. -/
theorem C2_env_path_conflicting_identity_witness :
    envBothIdentities "ARM_SUBSCRIPTION_ID" = some "sub" ∧
    envBothIdentities "ARM_USE_MANAGED_IDENTITY_EXTENSION" = some "true" ∧
    parseBool "true" = some true ∧
    envBothIdentities "ARM_USE_WORKLOAD_IDENTITY_EXTENSION" = some "true" ∧
    BuildAzureConfig none envBothIdentities (.error "imds unreachable")
      (.error "no parameters file") = .error conflictingIdentityMsg :=
  ⟨rfl, rfl, rfl, rfl,
   C2_env_path_conflicting_identity envBothIdentities (.error "imds unreachable")
     (.error "no parameters file") "sub" "true" "true" rfl rfl rfl rfl rfl⟩

/-! ## C3: the empty string as absence -/

/-- Counterexample for C3: with `ARM_SUBSCRIPTION_ID` present but empty the
subscription lookup returns the empty string and never falls back to the
instance-metadata provider — the empty string is treated as a value, not
as absence. -/
theorem C3_empty_subscription_counterexample :
    getSubscriptionIdFromInstanceMetadata (envOfList [("ARM_SUBSCRIPTION_ID", "")])
      (.ok "subscription-from-metadata") = .ok "" ∧
    (Except.ok "" : Except String String) ≠ .ok "subscription-from-metadata" :=
  ⟨rfl, fun h => absurd (Except.ok.inj h) (by decide)⟩

/-- C3 (amended): every environment read of the resolver other than the
subscription-id lookup goes through `Getenv`, for which an unset variable
and an empty one coincide — two environments that agree under `Getenv` and
agree on the presence of `ARM_SUBSCRIPTION_ID` resolve identically — while
the subscription-id lookup itself is presence-sensitive: any present value,
the empty string included, is returned as-is without consulting the
instance-metadata provider. -/
theorem C3_empty_treated_as_absent_except_subscription (env1 env2 : Env)
    (imds : Except String String) (dp : Except String (List String))
    (hg : ∀ name, getEnv env1 name = getEnv env2 name)
    (hsub : env1 "ARM_SUBSCRIPTION_ID" = env2 "ARM_SUBSCRIPTION_ID") :
    BuildAzureConfig none env1 imds dp = BuildAzureConfig none env2 imds dp ∧
    ∀ s : String, getSubscriptionIdFromInstanceMetadata
      (fun n => if n = "ARM_SUBSCRIPTION_ID" then some s else env1 n) imds = .ok s := by
  constructor
  · have hG : getEnv env1 = getEnv env2 := funext hg
    have hB : readBoolEnv env1 = readBoolEnv env2 := by
      funext n; unfold readBoolEnv; rw [hG]
    have hI : readIntEnv env1 = readIntEnv env2 := by
      funext n; unfold readIntEnv; rw [hG]
    have hF : readFloatEnv env1 = readFloatEnv env2 := by
      funext n; unfold readFloatEnv; rw [hG]
    unfold BuildAzureConfig buildFromEnv envStringStage envIdentityStage
      envCacheStage envBackoffStage finishConfig finishNormalizeStage
      finishResolveStage initializeCloudProviderRateLimitConfig
      resolveGlobalRateLimit getSubscriptionIdFromInstanceMetadata lookupEnv
    simp only [hG, hB, hI, hF, hsub]
  · intro s
    unfold getSubscriptionIdFromInstanceMetadata lookupEnv
    simp

/-- Witness environments for C3: one variable set to the empty string
versus not set at all. -/
def envEmptyCloud : Env := envOfList [("ARM_CLOUD", "")]

/-- Witness for C3 (amended): `ARM_CLOUD` set empty behaves as unset. -/
theorem C3_empty_treated_as_absent_except_subscription_witness :
    (∀ name, getEnv envEmptyCloud name = getEnv emptyEnv name) ∧
    envEmptyCloud "ARM_SUBSCRIPTION_ID" = emptyEnv "ARM_SUBSCRIPTION_ID" ∧
    (BuildAzureConfig none envEmptyCloud (.ok "sub") (.ok []) =
      BuildAzureConfig none emptyEnv (.ok "sub") (.ok []) ∧
    ∀ s : String, getSubscriptionIdFromInstanceMetadata
      (fun n => if n = "ARM_SUBSCRIPTION_ID" then some s else envEmptyCloud n)
      (.ok "sub") = .ok s) :=
  ⟨fun name => by
      unfold getEnv envEmptyCloud emptyEnv envOfList
      simp [List.find?]
      split <;> rfl,
   rfl,
   C3_empty_treated_as_absent_except_subscription envEmptyCloud emptyEnv
     (.ok "sub") (.ok [])
     (fun name => by
       unfold getEnv envEmptyCloud emptyEnv envOfList
       simp [List.find?]
       split <;> rfl)
     rfl⟩

/-! ## C7: backoff defaults -/

/-- Counterexample input for C7: a structured payload that enables backoff
and carries its own backoff values. -/
def cfgBackoffPayload : Config :=
  { Config.empty with
    ResourceGroup := "rg"
    SubscriptionID := "sub"
    UseManagedIdentityExtension := true
    CloudProviderBackoff := true
    CloudProviderBackoffRetries := 3
    CloudProviderBackoffExponent := 2
    CloudProviderBackoffDuration := 7
    CloudProviderBackoffJitter := 1 / 2 }

/-- Counterexample for C7: a payload with the enable-backoff flag true and
no backoff environment overrides resolves to its own backoff values
(3, 2, 7, 1/2), not to the claimed defaults (6, 3/2, 5, 1) — the default
derivation runs only in the environment path. -/
theorem C7_backoff_defaults_counterexample :
    cfgBackoffPayload.CloudProviderBackoff = true ∧
    (BuildAzureConfig (some cfgBackoffPayload) emptyEnv (.error "imds unreachable")
        (.error "no parameters file")).map
      (fun c => (c.CloudProviderBackoffRetries, c.CloudProviderBackoffExponent,
        c.CloudProviderBackoffDuration, c.CloudProviderBackoffJitter)) =
      .ok (3, 2, 7, 1 / 2) ∧
    (3 : Int) ≠ 6 :=
  ⟨rfl, rfl, by decide⟩

/-- Once `ENABLE_BACKOFF` parses to true, the cache/toggle stage leaves the
backoff flag enabled. -/
theorem envCacheStage_backoff_true (env : Env) (cfg c' : Config) (s : String)
    (hs : env "ENABLE_BACKOFF" = some s) (hp : parseBool s = some true)
    (h : envCacheStage env cfg = .ok c') :
    c'.CloudProviderBackoff = true := by
  unfold envCacheStage at h
  obtain ⟨v1, h1, h⟩ := bindEqOk h
  obtain ⟨v2, h2, h⟩ := bindEqOk h
  obtain ⟨v3, h3, h⟩ := bindEqOk h
  obtain ⟨v4, h4, h⟩ := bindEqOk h
  obtain ⟨v5, h5, h⟩ := bindEqOk h
  obtain ⟨v6, h6, h⟩ := bindEqOk h
  obtain ⟨v7, h7, h⟩ := bindEqOk h
  obtain ⟨v8, h8, h⟩ := bindEqOk h
  rw [readBoolEnv_of_some hs hp] at h5
  cases h5
  rw [pure_eq_ok] at h
  cases h
  simp

/-- With backoff enabled and no backoff environment overrides, the backoff
stage installs exactly the four hard defaults. -/
theorem envBackoffStage_defaults (env : Env) (cfg c' : Config)
    (hb : cfg.CloudProviderBackoff = true)
    (h1 : env "BACKOFF_RETRIES" = none) (h2 : env "BACKOFF_EXPONENT" = none)
    (h3 : env "BACKOFF_DURATION" = none) (h4 : env "BACKOFF_JITTER" = none)
    (h : envBackoffStage env cfg = .ok c') :
    c'.CloudProviderBackoff = true ∧
    c'.CloudProviderBackoffRetries = backoffRetriesDefault ∧
    c'.CloudProviderBackoffExponent = backoffExponentDefault ∧
    c'.CloudProviderBackoffDuration = backoffDurationDefault ∧
    c'.CloudProviderBackoffJitter = backoffJitterDefault := by
  unfold envBackoffStage at h
  rw [hb, if_pos rfl] at h
  obtain ⟨v1, hv1, h⟩ := bindEqOk h
  obtain ⟨v2, hv2, h⟩ := bindEqOk h
  obtain ⟨v3, hv3, h⟩ := bindEqOk h
  obtain ⟨v4, hv4, h⟩ := bindEqOk h
  rw [readIntEnv_of_none h1] at hv1
  rw [readFloatEnv_of_none h2] at hv2
  rw [readIntEnv_of_none h3] at hv3
  rw [readFloatEnv_of_none h4] at hv4
  cases hv1
  cases hv2
  cases hv3
  cases hv4
  rw [pure_eq_ok] at h
  cases h
  simp [hb]

/-- The normalization stage never touches the backoff fields. -/
theorem finishNormalizeStage_preserves_backoff (env : Env) (cfg c' : Config)
    (h : finishNormalizeStage env cfg = .ok c') :
    c'.CloudProviderBackoff = cfg.CloudProviderBackoff ∧
    c'.CloudProviderBackoffRetries = cfg.CloudProviderBackoffRetries ∧
    c'.CloudProviderBackoffExponent = cfg.CloudProviderBackoffExponent ∧
    c'.CloudProviderBackoffDuration = cfg.CloudProviderBackoffDuration ∧
    c'.CloudProviderBackoffJitter = cfg.CloudProviderBackoffJitter := by
  unfold finishNormalizeStage at h
  obtain ⟨v, hv, h⟩ := bindEqOk h
  rw [pure_eq_ok] at h
  cases h
  cases v <;> simp [Config.trimSpace]

/-- The resolve/validate stage never touches the backoff fields. -/
theorem finishResolveStage_preserves_backoff (env : Env)
    (dp : Except String (List String)) (cfg c' : Config)
    (h : finishResolveStage env dp cfg = .ok c') :
    c'.CloudProviderBackoff = cfg.CloudProviderBackoff ∧
    c'.CloudProviderBackoffRetries = cfg.CloudProviderBackoffRetries ∧
    c'.CloudProviderBackoffExponent = cfg.CloudProviderBackoffExponent ∧
    c'.CloudProviderBackoffDuration = cfg.CloudProviderBackoffDuration ∧
    c'.CloudProviderBackoffJitter = cfg.CloudProviderBackoffJitter := by
  unfold finishResolveStage at h
  obtain ⟨v1, h1, h⟩ := bindEqOk h
  obtain ⟨rlc, h2, h⟩ := bindEqOk h
  obtain ⟨v3, h3, h⟩ := bindEqOk h
  have hv3 : v3.CloudProviderBackoff = cfg.CloudProviderBackoff ∧
      v3.CloudProviderBackoffRetries = cfg.CloudProviderBackoffRetries ∧
      v3.CloudProviderBackoffExponent = cfg.CloudProviderBackoffExponent ∧
      v3.CloudProviderBackoffDuration = cfg.CloudProviderBackoffDuration ∧
      v3.CloudProviderBackoffJitter = cfg.CloudProviderBackoffJitter := by
    split at h3 <;> split at h3 <;>
      first
        | (rw [pure_eq_ok] at h3
           cases h3
           simp)
        | (cases dp with
            | error e =>
              rw [map_error_eq] at h3
              exact absurd h3 (fun hh => Except.noConfusion hh)
            | ok l =>
              rw [map_ok_eq] at h3
              cases h3
              simp)
  obtain ⟨b0, b1, b2, b3, b4⟩ := hv3
  split at h <;> (dsimp only at h; split at h) <;>
    first
      | (rw [throw_eq] at h
         exact absurd h (fun hh => Except.noConfusion hh))
      | (rw [pure_eq_ok] at h
         cases h
         simp [b0, b1, b2, b3, b4])

/-- C7 (amended): in the environment-derived path, with `ENABLE_BACKOFF`
parsing to true and none of the four backoff environment overrides set, the
resolved configuration carries exactly the default backoff policy:
steps 6, exponent 3/2, base duration 5 seconds, jitter 1. -/
theorem C7_backoff_defaults_env_path (env : Env) (imds : Except String String)
    (dp : Except String (List String)) (s : String) (out : Config)
    (hs : env "ENABLE_BACKOFF" = some s) (hp : parseBool s = some true)
    (h1 : env "BACKOFF_RETRIES" = none) (h2 : env "BACKOFF_EXPONENT" = none)
    (h3 : env "BACKOFF_DURATION" = none) (h4 : env "BACKOFF_JITTER" = none)
    (hres : BuildAzureConfig none env imds dp = .ok out) :
    out.CloudProviderBackoff = true ∧
    out.CloudProviderBackoffRetries = 6 ∧
    out.CloudProviderBackoffExponent = 3 / 2 ∧
    out.CloudProviderBackoffDuration = 5 ∧
    out.CloudProviderBackoffJitter = 1 := by
  unfold BuildAzureConfig at hres
  obtain ⟨cB, hB, hres⟩ := bindEqOk hres
  unfold buildFromEnv at hB
  obtain ⟨cC, hC, hB⟩ := bindEqOk hB
  obtain ⟨cI, hI, hC⟩ := bindEqOk hC
  have hflag := envCacheStage_backoff_true env cI cC s hs hp hC
  obtain ⟨b0, b1, b2, b3, b4⟩ :=
    envBackoffStage_defaults env cC cB hflag h1 h2 h3 h4 hB
  unfold finishConfig at hres
  obtain ⟨cN, hN, hres⟩ := bindEqOk hres
  obtain ⟨n0, n1, n2, n3, n4⟩ := finishNormalizeStage_preserves_backoff env cB cN hN
  obtain ⟨r0, r1, r2, r3, r4⟩ :=
    finishResolveStage_preserves_backoff env dp cN out hres
  exact ⟨by rw [r0, n0, b0], by rw [r1, n1, b1]; rfl, by rw [r2, n2, b2]; rfl,
    by rw [r3, n3, b3]; rfl, by rw [r4, n4, b4]; rfl⟩

/-- Witness environment for C7: backoff enabled, nothing else set that
would override the defaults. -/
def envBackoffOn : Env := envOfList
  [("ARM_RESOURCE_GROUP", "rg"), ("ARM_SUBSCRIPTION_ID", "sub"),
   ("ARM_USE_MANAGED_IDENTITY_EXTENSION", "true"), ("ENABLE_BACKOFF", "true")]

/-- The configuration that resolves under `envBackoffOn`. -/
def cfgBackoffResolved : Config :=
  (BuildAzureConfig none envBackoffOn (.error "imds unreachable")
    (.error "no parameters file")).toOption.getD Config.empty

/-- Witness for C7 (amended): under `envBackoffOn` the resolved backoff
policy is the default one. -/
theorem C7_backoff_defaults_env_path_witness :
    envBackoffOn "ENABLE_BACKOFF" = some "true" ∧
    parseBool "true" = some true ∧
    envBackoffOn "BACKOFF_RETRIES" = none ∧
    (cfgBackoffResolved.CloudProviderBackoff = true ∧
     cfgBackoffResolved.CloudProviderBackoffRetries = 6 ∧
     cfgBackoffResolved.CloudProviderBackoffExponent = 3 / 2 ∧
     cfgBackoffResolved.CloudProviderBackoffDuration = 5 ∧
     cfgBackoffResolved.CloudProviderBackoffJitter = 1) :=
  ⟨rfl, rfl, rfl,
   C7_backoff_defaults_env_path envBackoffOn (.error "imds unreachable")
     (.error "no parameters file") "true" cfgBackoffResolved
     rfl rfl rfl rfl rfl rfl rfl⟩

end AzureConfig
